import Mathlib

/-!
# VPD calculator (`vpd.h`): embedding and verified properties

The header computes the vapor pressure deficit from temperature and relative
humidity and classifies it against target ranges that depend on the grow stage
and the plant age.

Numbers: the C++ `float` values are modelled by an arbitrary linearly ordered
field `α` (exact arithmetic on finite values).  Over `ℚ` every definition below
is executable; over `ℝ`, with `Real.exp` for the library `exp`, the same
definitions give the exact-arithmetic reading of the formulas.  A decimal
literal such as `0.4` denotes its exact decimal value.  Division is the
field's total division, so at `tempC = -237.3` the quotient inside
`saturationVaporPressure` is the field's `x / 0 = 0`; statements about that
point say so.

Enumerations: a C++ `enum class` can hold any value of its underlying integer
type, and the `switch` statements of the header have `default:` branches for
them.  `GrowStage` and `VpdStatus` are therefore modelled by their underlying
integer, with the named enumerators as constants.
-/

namespace Vpd

/-- The C++ `enum class GrowStage { VEG, FLOWER }`, by its underlying integer. -/
structure GrowStage where
  raw : Int
  deriving DecidableEq, Repr

/-- Enumerator `GrowStage::VEG` (vegetative stage), value `0`. -/
def GrowStage.VEG : GrowStage := ⟨0⟩

/-- Enumerator `GrowStage::FLOWER` (flowering stage), value `1`. -/
def GrowStage.FLOWER : GrowStage := ⟨1⟩

/-- The C++ `enum class VpdStatus { TOO_LOW, OPTIMAL, TOO_HIGH }`, by its
underlying integer. -/
structure VpdStatus where
  raw : Int
  deriving DecidableEq, Repr

/-- Enumerator `VpdStatus::TOO_LOW`, value `0`. -/
def VpdStatus.TOO_LOW : VpdStatus := ⟨0⟩

/-- Enumerator `VpdStatus::OPTIMAL`, value `1`. -/
def VpdStatus.OPTIMAL : VpdStatus := ⟨1⟩

/-- Enumerator `VpdStatus::TOO_HIGH`, value `2`. -/
def VpdStatus.TOO_HIGH : VpdStatus := ⟨2⟩

/-- The C++ `struct VpdRange { float min_kPa; float max_kPa; }`. -/
structure VpdRange (α : Type) where
  min_kPa : α
  max_kPa : α
  deriving DecidableEq, Repr

variable {α : Type} [LinearOrderedField α]

/-- Saturation vapor pressure in kPa (Magnus-Tetens):
`return 0.6108 * exp((17.27 * tempC) / (tempC + 237.3));`
The library function `exp` is the parameter `exp`. -/
def saturationVaporPressure (exp : α → α) (tempC : α) : α :=
  0.6108 * exp ((17.27 * tempC) / (tempC + 237.3))

/-- Actual vapor pressure in kPa:
`float es = saturationVaporPressure(tempC); return es * rhPercent / 100.0;` -/
def actualVaporPressure (exp : α → α) (tempC rhPercent : α) : α :=
  let es := saturationVaporPressure exp tempC
  es * rhPercent / 100.0

/-- Vapor pressure deficit in kPa:
`float es = saturationVaporPressure(tempC);`
`float ea = actualVaporPressure(tempC, rhPercent); return es - ea;` -/
def computeVPD (exp : α → α) (tempC rhPercent : α) : α :=
  let es := saturationVaporPressure exp tempC
  let ea := actualVaporPressure exp tempC rhPercent
  es - ea

/-- Target VPD range for a grow stage and a plant age in days.  The C++ default
argument `plantAgeDays = -1` is passed explicitly by the callers here.  The
age-based branch tests `stage == GrowStage::VEG` and sends every other stage
value to the flowering bands; the stage-only branch is a `switch` with a
`default:` that repeats the vegetative range. -/
def getVpdRangeForStage (stage : GrowStage) (plantAgeDays : α) : VpdRange α :=
  if plantAgeDays ≥ 0 then
    if stage = GrowStage.VEG then
      if plantAgeDays ≤ 14 then
        { min_kPa := 0.4, max_kPa := 0.8 }
      else if plantAgeDays ≤ 28 then
        { min_kPa := 0.8, max_kPa := 1.0 }
      else
        { min_kPa := 1.0, max_kPa := 1.2 }
    else
      let flowerDays := plantAgeDays - 30
      if flowerDays ≤ 21 then
        { min_kPa := 1.0, max_kPa := 1.3 }
      else if flowerDays ≤ 49 then
        { min_kPa := 1.2, max_kPa := 1.5 }
      else
        { min_kPa := 1.3, max_kPa := 1.6 }
  else
    if stage = GrowStage.VEG then
      { min_kPa := 0.8, max_kPa := 1.2 }
    else if stage = GrowStage.FLOWER then
      { min_kPa := 1.2, max_kPa := 1.6 }
    else
      { min_kPa := 0.8, max_kPa := 1.2 }

/-- Classification of a VPD reading against the range of the stage and age:
below `min_kPa` is `TOO_LOW`, above `max_kPa` is `TOO_HIGH`, else `OPTIMAL`. -/
def classifyVpd (vpd : α) (stage : GrowStage) (plantAgeDays : α) : VpdStatus :=
  let range := getVpdRangeForStage stage plantAgeDays
  if vpd < range.min_kPa then
    VpdStatus.TOO_LOW
  else if vpd > range.max_kPa then
    VpdStatus.TOO_HIGH
  else
    VpdStatus.OPTIMAL

/-- Display string of a status; `"unknown"` in the `default:` branch. -/
def vpdStatusToString (status : VpdStatus) : String :=
  if status = VpdStatus.TOO_LOW then "too_low"
  else if status = VpdStatus.OPTIMAL then "optimal"
  else if status = VpdStatus.TOO_HIGH then "too_high"
  else "unknown"

/-- Display string of a stage; `"unknown"` in the `default:` branch. -/
def growStageToString (stage : GrowStage) : String :=
  if stage = GrowStage.VEG then "veg"
  else if stage = GrowStage.FLOWER then "flower"
  else "unknown"

/-- Numeric code of a status for monitoring; `-999` in the `default:` branch. -/
def vpdStatusToNumeric (status : VpdStatus) : Int :=
  if status = VpdStatus.TOO_LOW then -1
  else if status = VpdStatus.OPTIMAL then 0
  else if status = VpdStatus.TOO_HIGH then 1
  else -999

/-! ## Helper lemmas -/

/-- Every range the lookup can return has `min_kPa ≤ max_kPa`. -/
theorem range_ordered (stage : GrowStage) (plantAgeDays : α) :
    (getVpdRangeForStage stage plantAgeDays).min_kPa ≤
      (getVpdRangeForStage stage plantAgeDays).max_kPa := by
  simp only [getVpdRangeForStage]
  split_ifs <;> norm_num

/-- The Magnus-Tetens exponent at 25 °C is `8635 / 5246`, and its exponential
lies between `5.186276` and `5.186277`. -/
theorem exp_magnus25_bounds :
    (5.186276 : ℝ) < Real.exp (8635 / 5246) ∧ Real.exp (8635 / 5246) < 5.186277 := by
  have hsplit : Real.exp (8635 / 5246) = Real.exp 1 * Real.exp (3389 / 5246) := by
    rw [← Real.exp_add]; norm_num
  have hlo : (1.9079245 : ℝ) ≤ Real.exp (3389 / 5246) := by
    have h := Real.sum_le_exp_of_nonneg (show (0 : ℝ) ≤ 3389 / 5246 by norm_num) 12
    refine le_trans ?_ h
    norm_num [Finset.sum_range_succ, Nat.factorial]
  have hhi : Real.exp (3389 / 5246) ≤ (1.9079246 : ℝ) := by
    have h := Real.exp_bound' (show (0 : ℝ) ≤ 3389 / 5246 by norm_num)
      (show (3389 / 5246 : ℝ) ≤ 1 by norm_num) (show 0 < 12 by norm_num)
    refine le_trans h ?_
    norm_num [Finset.sum_range_succ, Nat.factorial]
  have he1 := Real.exp_one_gt_d9
  have he2 := Real.exp_one_lt_d9
  have hpos : (0 : ℝ) < Real.exp (3389 / 5246) := Real.exp_pos _
  rw [hsplit]
  constructor
  · nlinarith
  · nlinarith

/-- Saturation vapor pressure at 25 °C, in exact arithmetic, to six decimals. -/
theorem es25_bounds :
    (3.167777 : ℝ) < saturationVaporPressure Real.exp 25 ∧
      saturationVaporPressure Real.exp 25 < 3.167778 := by
  have hx : ((17.27 : ℝ) * 25) / (25 + 237.3) = 8635 / 5246 := by norm_num
  obtain ⟨h1, h2⟩ := exp_magnus25_bounds
  unfold saturationVaporPressure
  rw [hx]
  constructor <;> nlinarith

/-! ## Vapor-pressure math -/

/-- C1: in exact real arithmetic, for `t ≠ -237.3` and `0 ≤ rh ≤ 100`,
`actualVaporPressure t rh` is `es * rh / 100`, `computeVPD t rh` is `es - ea`,
and so `computeVPD t rh = saturationVaporPressure t * (1 - rh / 100)`. -/
theorem computeVPD_eq_es_mul_one_sub (t rh : ℝ) (_ht : t ≠ -237.3) (_h0 : 0 ≤ rh)
    (_h100 : rh ≤ 100) :
    actualVaporPressure Real.exp t rh = saturationVaporPressure Real.exp t * rh / 100 ∧
    computeVPD Real.exp t rh =
      saturationVaporPressure Real.exp t - actualVaporPressure Real.exp t rh ∧
    computeVPD Real.exp t rh = saturationVaporPressure Real.exp t * (1 - rh / 100) := by
  refine ⟨?_, rfl, ?_⟩
  · simp only [actualVaporPressure]; norm_num
  · simp only [computeVPD, actualVaporPressure]; norm_num; ring

/-- Instance of C1 at 25 °C and 50 % relative humidity. -/
theorem computeVPD_eq_es_mul_one_sub_witness :
    (25 : ℝ) ≠ -237.3 ∧ (0 : ℝ) ≤ 50 ∧ (50 : ℝ) ≤ 100 ∧
    (actualVaporPressure Real.exp 25 50 = saturationVaporPressure Real.exp 25 * 50 / 100 ∧
     computeVPD Real.exp 25 50 =
      saturationVaporPressure Real.exp 25 - actualVaporPressure Real.exp 25 50 ∧
     computeVPD Real.exp 25 50 = saturationVaporPressure Real.exp 25 * (1 - 50 / 100)) :=
  ⟨by norm_num, by norm_num, by norm_num,
    computeVPD_eq_es_mul_one_sub 25 50 (by norm_num) (by norm_num) (by norm_num)⟩

/-! ## Classification -/

/-- C2: with `[min, max]` the range of the stage and age, `classifyVpd` is
`TOO_LOW` exactly when `vpd < min`, `TOO_HIGH` exactly when `vpd > max`, and
`OPTIMAL` exactly when `min ≤ vpd ≤ max`; at the default age `-1` in the
vegetative stage, `1.0` is optimal, `0.7` too low and `1.3` too high. -/
theorem classifyVpd_iff (vpd : α) (stage : GrowStage) (plantAgeDays : α) :
    (classifyVpd vpd stage plantAgeDays = VpdStatus.TOO_LOW ↔
      vpd < (getVpdRangeForStage stage plantAgeDays).min_kPa) ∧
    (classifyVpd vpd stage plantAgeDays = VpdStatus.TOO_HIGH ↔
      vpd > (getVpdRangeForStage stage plantAgeDays).max_kPa) ∧
    (classifyVpd vpd stage plantAgeDays = VpdStatus.OPTIMAL ↔
      (getVpdRangeForStage stage plantAgeDays).min_kPa ≤ vpd ∧
        vpd ≤ (getVpdRangeForStage stage plantAgeDays).max_kPa) ∧
    classifyVpd (1.0 : α) GrowStage.VEG (-1) = VpdStatus.OPTIMAL ∧
    classifyVpd (0.7 : α) GrowStage.VEG (-1) = VpdStatus.TOO_LOW ∧
    classifyVpd (1.3 : α) GrowStage.VEG (-1) = VpdStatus.TOO_HIGH := by
  have hr := range_ordered stage plantAgeDays
  have e01 : VpdStatus.TOO_LOW ≠ VpdStatus.OPTIMAL := by decide
  have e02 : VpdStatus.TOO_LOW ≠ VpdStatus.TOO_HIGH := by decide
  have e12 : VpdStatus.OPTIMAL ≠ VpdStatus.TOO_HIGH := by decide
  refine ⟨?_, ?_, ?_, ?_, ?_, ?_⟩
  · simp only [classifyVpd]
    split_ifs with h1 h2
    · simp [h1]
    · simp [h1, e02.symm]
    · simp [h1, e01.symm]
  · simp only [classifyVpd]
    split_ifs with h1 h2
    · have : ¬ vpd > (getVpdRangeForStage stage plantAgeDays).max_kPa :=
        not_lt.mpr (le_trans h1.le hr)
      simp [this, e02]
    · simp [h2]
    · simp [h2, e12]
  · simp only [classifyVpd]
    split_ifs with h1 h2
    · have : ¬ (getVpdRangeForStage stage plantAgeDays).min_kPa ≤ vpd := not_le.mpr h1
      simp [this, e01]
    · have : ¬ vpd ≤ (getVpdRangeForStage stage plantAgeDays).max_kPa := not_le.mpr h2
      simp [this, e12.symm]
    · exact ⟨fun _ => ⟨not_lt.mp h1, not_lt.mp h2⟩, fun _ => rfl⟩
  · norm_num [classifyVpd, getVpdRangeForStage]
  · norm_num [classifyVpd, getVpdRangeForStage]
  · norm_num [classifyVpd, getVpdRangeForStage]

/-! ## Range lookup -/

/-- C3: in the vegetative stage, for every age `≥ 0` (integer or not), the range
is `[0.4, 0.8]` when age `≤ 14`, `[0.8, 1.0]` when `14 < age ≤ 28`, and
`[1.0, 1.2]` when age `> 28`; age 14 is in the seedling band, age 15 in the
early-veg band. -/
theorem getVpdRangeForStage_veg (plantAgeDays : α) (h : 0 ≤ plantAgeDays) :
    (plantAgeDays ≤ 14 →
      getVpdRangeForStage GrowStage.VEG plantAgeDays = ⟨0.4, 0.8⟩) ∧
    (14 < plantAgeDays ∧ plantAgeDays ≤ 28 →
      getVpdRangeForStage GrowStage.VEG plantAgeDays = ⟨0.8, 1.0⟩) ∧
    (28 < plantAgeDays →
      getVpdRangeForStage GrowStage.VEG plantAgeDays = ⟨1.0, 1.2⟩) ∧
    getVpdRangeForStage GrowStage.VEG (14 : α) = ⟨0.4, 0.8⟩ ∧
    getVpdRangeForStage GrowStage.VEG (15 : α) = ⟨0.8, 1.0⟩ := by
  have h0 : plantAgeDays ≥ 0 := h
  refine ⟨?_, ?_, ?_, ?_, ?_⟩
  · intro h14
    simp only [getVpdRangeForStage, if_pos h0, if_pos h14, if_true]
  · rintro ⟨h14, h28⟩
    simp only [getVpdRangeForStage, if_pos h0, if_neg (not_le.mpr h14), if_pos h28, if_true]
  · intro h28
    have h14 : ¬ plantAgeDays ≤ 14 := not_le.mpr (lt_trans (by norm_num) h28)
    simp only [getVpdRangeForStage, if_pos h0, if_neg h14, if_neg (not_le.mpr h28), if_true]
  · norm_num [getVpdRangeForStage]
  · norm_num [getVpdRangeForStage]

/-- Instance of C3 at the non-integer age 14.5 days, over the rationals. -/
theorem getVpdRangeForStage_veg_witness :
    (0 : ℚ) ≤ 14.5 ∧
    getVpdRangeForStage GrowStage.VEG (14.5 : ℚ) = ⟨0.8, 1.0⟩ :=
  ⟨by norm_num,
    (getVpdRangeForStage_veg (14.5 : ℚ) (by norm_num)).2.1 ⟨by norm_num, by norm_num⟩⟩

/-- C4: in the flowering stage, for every age `≥ 0`, with
`flowerDays = plantAgeDays - 30`, the range is `[1.0, 1.3]` when
`flowerDays ≤ 21` (age `≤ 51`, in particular every age below 30),
`[1.2, 1.5]` when `21 < flowerDays ≤ 49` (`51 < age ≤ 79`), and `[1.3, 1.6]`
when `flowerDays > 49` (age `> 79`); age 51 gives `[1.0, 1.3]`, age 52 gives
`[1.2, 1.5]`. -/
theorem getVpdRangeForStage_flower (plantAgeDays : α) (h : 0 ≤ plantAgeDays) :
    (plantAgeDays - 30 ≤ 21 →
      getVpdRangeForStage GrowStage.FLOWER plantAgeDays = ⟨1.0, 1.3⟩) ∧
    (21 < plantAgeDays - 30 ∧ plantAgeDays - 30 ≤ 49 →
      getVpdRangeForStage GrowStage.FLOWER plantAgeDays = ⟨1.2, 1.5⟩) ∧
    (49 < plantAgeDays - 30 →
      getVpdRangeForStage GrowStage.FLOWER plantAgeDays = ⟨1.3, 1.6⟩) ∧
    (plantAgeDays - 30 ≤ 21 ↔ plantAgeDays ≤ 51) ∧
    (21 < plantAgeDays - 30 ∧ plantAgeDays - 30 ≤ 49 ↔
      51 < plantAgeDays ∧ plantAgeDays ≤ 79) ∧
    (49 < plantAgeDays - 30 ↔ 79 < plantAgeDays) ∧
    (plantAgeDays < 30 →
      plantAgeDays - 30 < 0 ∧
        getVpdRangeForStage GrowStage.FLOWER plantAgeDays = ⟨1.0, 1.3⟩) ∧
    getVpdRangeForStage GrowStage.FLOWER (51 : α) = ⟨1.0, 1.3⟩ ∧
    getVpdRangeForStage GrowStage.FLOWER (52 : α) = ⟨1.2, 1.5⟩ := by
  have h0 : plantAgeDays ≥ 0 := h
  have hne : ¬ GrowStage.FLOWER = GrowStage.VEG := by decide
  have early : plantAgeDays - 30 ≤ 21 →
      getVpdRangeForStage GrowStage.FLOWER plantAgeDays = ⟨1.0, 1.3⟩ := by
    intro h21
    simp only [getVpdRangeForStage, if_pos h0, if_neg hne, if_pos h21]
  refine ⟨early, ?_, ?_, ?_, ?_, ?_, ?_, ?_, ?_⟩
  · rintro ⟨h21, h49⟩
    simp only [getVpdRangeForStage, if_pos h0, if_neg hne, if_neg (not_le.mpr h21), if_pos h49]
  · intro h49
    have h21 : ¬ plantAgeDays - 30 ≤ 21 := not_le.mpr (lt_trans (by norm_num) h49)
    simp only [getVpdRangeForStage, if_pos h0, if_neg hne, if_neg h21,
      if_neg (not_le.mpr h49)]
  · constructor <;> intro hh <;> linarith
  · constructor <;> rintro ⟨h1, h2⟩ <;> constructor <;> linarith
  · constructor <;> intro hh <;> linarith
  · intro h30
    exact ⟨by linarith, early (by linarith)⟩
  · norm_num [getVpdRangeForStage, hne]
  · norm_num [getVpdRangeForStage, hne]

/-- Instance of C4 at age 10 days (ten days old, `flowerDays = -20`), over the
rationals. -/
theorem getVpdRangeForStage_flower_witness :
    (0 : ℚ) ≤ 10 ∧
    ((10 : ℚ) - 30 < 0 ∧ getVpdRangeForStage GrowStage.FLOWER (10 : ℚ) = ⟨1.0, 1.3⟩) :=
  ⟨by norm_num,
    (getVpdRangeForStage_flower (10 : ℚ) (by norm_num)).2.2.2.2.2.2.1 (by norm_num)⟩

/-- C5: for every negative age (not only `-1`) the lookup ignores the age: the
result is the one at `-1` whatever the stage, `[0.8, 1.2]` in the vegetative
stage and `[1.2, 1.6]` in the flowering stage. -/
theorem getVpdRangeForStage_neg_age (plantAgeDays : α) (h : plantAgeDays < 0) :
    (∀ stage : GrowStage,
      getVpdRangeForStage stage plantAgeDays = getVpdRangeForStage stage (-1 : α)) ∧
    getVpdRangeForStage GrowStage.VEG plantAgeDays = ⟨0.8, 1.2⟩ ∧
    getVpdRangeForStage GrowStage.FLOWER plantAgeDays = ⟨1.2, 1.6⟩ := by
  have h0 : ¬ plantAgeDays ≥ 0 := not_le.mpr h
  have h1 : ¬ (-1 : α) ≥ 0 := by norm_num
  have hne : ¬ GrowStage.FLOWER = GrowStage.VEG := by decide
  refine ⟨?_, ?_, ?_⟩
  · intro stage
    simp only [getVpdRangeForStage, if_neg h0, if_neg h1]
  · simp only [getVpdRangeForStage, if_neg h0, if_true]
  · simp only [getVpdRangeForStage, if_neg h0, if_neg hne, if_true]

/-- Instance of C5 at age `-7.25`, over the rationals. -/
theorem getVpdRangeForStage_neg_age_witness :
    (-7.25 : ℚ) < 0 ∧
    ((∀ stage : GrowStage,
      getVpdRangeForStage stage (-7.25 : ℚ) = getVpdRangeForStage stage (-1 : ℚ)) ∧
    getVpdRangeForStage GrowStage.VEG (-7.25 : ℚ) = ⟨0.8, 1.2⟩ ∧
    getVpdRangeForStage GrowStage.FLOWER (-7.25 : ℚ) = ⟨1.2, 1.6⟩) :=
  ⟨by norm_num, getVpdRangeForStage_neg_age (-7.25 : ℚ) (by norm_num)⟩

/-- C6: for every stage value and every age (negative, zero or positive) the
returned range satisfies `min_kPa ≤ max_kPa`. -/
theorem getVpdRangeForStage_min_le_max (stage : GrowStage) (plantAgeDays : α) :
    (getVpdRangeForStage stage plantAgeDays).min_kPa ≤
      (getVpdRangeForStage stage plantAgeDays).max_kPa := by
  simp only [getVpdRangeForStage]
  split_ifs <;> norm_num

/-- C7: range bounds are inclusive: for every stage and age both `min_kPa` and
`max_kPa` of the looked-up range classify as `OPTIMAL`; in particular `0.8` and
`1.2` are optimal for the vegetative stage at the default age `-1`. -/
theorem classifyVpd_bounds_optimal (stage : GrowStage) (plantAgeDays : α) :
    classifyVpd (getVpdRangeForStage stage plantAgeDays).min_kPa stage plantAgeDays =
      VpdStatus.OPTIMAL ∧
    classifyVpd (getVpdRangeForStage stage plantAgeDays).max_kPa stage plantAgeDays =
      VpdStatus.OPTIMAL ∧
    classifyVpd (0.8 : α) GrowStage.VEG (-1) = VpdStatus.OPTIMAL ∧
    classifyVpd (1.2 : α) GrowStage.VEG (-1) = VpdStatus.OPTIMAL := by
  have hr := range_ordered stage plantAgeDays
  refine ⟨?_, ?_, ?_, ?_⟩
  · simp only [classifyVpd, lt_irrefl, if_false, gt_iff_lt, if_neg (not_lt.mpr hr)]
  · simp only [classifyVpd, lt_irrefl, if_false, gt_iff_lt, if_neg (not_lt.mpr hr)]
  · norm_num [classifyVpd, getVpdRangeForStage]
  · norm_num [classifyVpd, getVpdRangeForStage]

/-! ## Sign and numeric value of the deficit -/

/-- C8: in exact real arithmetic, for every temperature and every relative
humidity with `0 ≤ rh ≤ 100`, `computeVPD t rh ≥ 0`.  The proof uses only that
`exp` is positive, whatever its argument, so it does not depend on the value of
the quotient at `t = -237.3`. -/
theorem computeVPD_nonneg (t rh : ℝ) (_h0 : 0 ≤ rh) (h100 : rh ≤ 100) :
    computeVPD Real.exp t rh ≥ 0 := by
  have hes : 0 < saturationVaporPressure Real.exp t := by
    unfold saturationVaporPressure
    exact mul_pos (by norm_num) (Real.exp_pos _)
  have hfac : (0 : ℝ) ≤ 1 - rh / 100 := by linarith
  have heq : computeVPD Real.exp t rh =
      saturationVaporPressure Real.exp t * (1 - rh / 100) := by
    simp only [computeVPD, actualVaporPressure]; norm_num; ring
  rw [heq]
  exact mul_nonneg hes.le hfac

/-- Instance of C8 at 25 °C and 50 % relative humidity. -/
theorem computeVPD_nonneg_witness :
    (0 : ℝ) ≤ 50 ∧ (50 : ℝ) ≤ 100 ∧ computeVPD Real.exp 25 50 ≥ 0 :=
  ⟨by norm_num, by norm_num, computeVPD_nonneg 25 50 (by norm_num) (by norm_num)⟩

/-- C9, as stated, fails: in exact real arithmetic `saturationVaporPressure 25`
is about `3.167778`, farther than `0.001` from `3.1690`. -/
theorem es25_not_within_tolerance_of_3_1690 :
    ¬ |saturationVaporPressure Real.exp 25 - 3.1690| ≤ 0.001 := by
  obtain ⟨_, h2⟩ := es25_bounds
  intro h
  have := (abs_le.mp h).1
  linarith

/-- C9, amended: in exact real arithmetic
`saturationVaporPressure 25 = 0.6108 * exp (17.27 * 25 / (25 + 237.3))` is
within `±0.001` of `3.1678` kPa; its distance from `3.1690` is more than
`0.0012` and at most `0.0013`. -/
theorem es25_within_tolerance_of_3_1678 :
    saturationVaporPressure Real.exp 25 =
      0.6108 * Real.exp (17.27 * 25 / (25 + 237.3)) ∧
    |saturationVaporPressure Real.exp 25 - 3.1678| ≤ 0.001 ∧
    0.0012 < |saturationVaporPressure Real.exp 25 - 3.1690| ∧
    |saturationVaporPressure Real.exp 25 - 3.1690| ≤ 0.0013 := by
  obtain ⟨h1, h2⟩ := es25_bounds
  refine ⟨rfl, ?_, ?_, ?_⟩
  · rw [abs_le]; constructor <;> linarith
  · rw [lt_abs]; right; linarith
  · rw [abs_le]; constructor <;> linarith

/-- C10: in exact real arithmetic `computeVPD 25 50` is within `±0.001` of
`1.5845` kPa. -/
theorem computeVPD_25_50_within_tolerance :
    |computeVPD Real.exp 25 50 - 1.5845| ≤ 0.001 := by
  obtain ⟨h1, h2⟩ := es25_bounds
  have heq : computeVPD Real.exp 25 50 = saturationVaporPressure Real.exp 25 / 2 := by
    simp only [computeVPD, actualVaporPressure]; norm_num; ring
  rw [heq, abs_le]
  constructor <;> linarith

/-! ## Unrecognized stage values and the age sentinel -/

/-- The stage-only `switch`: for every stage value other than `VEG` and
`FLOWER` and every negative age, the `default:` branch returns the vegetative
range `[0.8, 1.2]`. -/
theorem getVpdRangeForStage_unrecognized_neg_age (stage : GrowStage) (plantAgeDays : α)
    (hv : stage ≠ GrowStage.VEG) (hf : stage ≠ GrowStage.FLOWER) (h : plantAgeDays < 0) :
    getVpdRangeForStage stage plantAgeDays = ⟨0.8, 1.2⟩ := by
  have h0 : ¬ plantAgeDays ≥ 0 := not_le.mpr h
  simp only [getVpdRangeForStage, if_neg h0, if_neg hv, if_neg hf]

/-- C11, the code at an unrecognized stage: the stage value `2` is neither
`VEG` nor `FLOWER`; at age `-1` the stage-only `switch` falls back to the
vegetative range `[0.8, 1.2]`, but at age `0` the age-based branch has no
fallback and returns the early-flower band `[1.0, 1.3]`, which is not
`[0.8, 1.2]`. -/
theorem unrecognized_stage_age_zero_not_veg_range :
    GrowStage.mk 2 ≠ GrowStage.VEG ∧ GrowStage.mk 2 ≠ GrowStage.FLOWER ∧
    getVpdRangeForStage (GrowStage.mk 2) (-1 : ℚ) = ⟨0.8, 1.2⟩ ∧
    getVpdRangeForStage (GrowStage.mk 2) (0 : ℚ) = ⟨1.0, 1.3⟩ ∧
    getVpdRangeForStage (GrowStage.mk 2) (0 : ℚ) ≠ ⟨0.8, 1.2⟩ := by
  have hv : GrowStage.mk 2 ≠ GrowStage.VEG := by decide
  have hf : GrowStage.mk 2 ≠ GrowStage.FLOWER := by decide
  have hval : getVpdRangeForStage (GrowStage.mk 2) (0 : ℚ) = ⟨1.0, 1.3⟩ := by
    norm_num [getVpdRangeForStage, hv]
  refine ⟨hv, hf,
    getVpdRangeForStage_unrecognized_neg_age (GrowStage.mk 2) (-1 : ℚ) hv hf (by norm_num),
    hval, ?_⟩
  rw [hval]
  intro h
  have h1 := congrArg VpdRange.min_kPa h
  norm_num at h1

/-- C12, the code at age `0`: the test is `plantAgeDays >= 0`, so age `0` takes
the age-based bands (`[0.4, 0.8]` for `VEG`, `[1.0, 1.3]` for `FLOWER`) and not
the stage-only ranges returned at `-1` (`[0.8, 1.2]`, `[1.2, 1.6]`). -/
theorem getVpdRangeForStage_age_zero_is_tracked :
    getVpdRangeForStage GrowStage.VEG (0 : ℚ) = ⟨0.4, 0.8⟩ ∧
    getVpdRangeForStage GrowStage.VEG (-1 : ℚ) = ⟨0.8, 1.2⟩ ∧
    getVpdRangeForStage GrowStage.FLOWER (0 : ℚ) = ⟨1.0, 1.3⟩ ∧
    getVpdRangeForStage GrowStage.FLOWER (-1 : ℚ) = ⟨1.2, 1.6⟩ ∧
    getVpdRangeForStage GrowStage.VEG (0 : ℚ) ≠ getVpdRangeForStage GrowStage.VEG (-1 : ℚ) ∧
    getVpdRangeForStage GrowStage.FLOWER (0 : ℚ) ≠
      getVpdRangeForStage GrowStage.FLOWER (-1 : ℚ) := by
  have hne : ¬ GrowStage.FLOWER = GrowStage.VEG := by decide
  have a : getVpdRangeForStage GrowStage.VEG (0 : ℚ) = ⟨0.4, 0.8⟩ := by
    norm_num [getVpdRangeForStage]
  have b : getVpdRangeForStage GrowStage.VEG (-1 : ℚ) = ⟨0.8, 1.2⟩ := by
    norm_num [getVpdRangeForStage]
  have c : getVpdRangeForStage GrowStage.FLOWER (0 : ℚ) = ⟨1.0, 1.3⟩ := by
    norm_num [getVpdRangeForStage, hne]
  have d : getVpdRangeForStage GrowStage.FLOWER (-1 : ℚ) = ⟨1.2, 1.6⟩ := by
    norm_num [getVpdRangeForStage, hne]
  refine ⟨a, b, c, d, ?_, ?_⟩
  · rw [a, b]
    intro h
    have h1 := congrArg VpdRange.min_kPa h
    norm_num at h1
  · rw [c, d]
    intro h
    have h1 := congrArg VpdRange.min_kPa h
    norm_num at h1

/-- C13: in exact real arithmetic, for `t ≠ -237.3` and `rh > 100`,
`computeVPD t rh < 0`: the humidity is not clamped. -/
theorem computeVPD_neg_of_rh_gt_100 (t rh : ℝ) (_ht : t ≠ -237.3) (h : 100 < rh) :
    computeVPD Real.exp t rh < 0 := by
  have hes : 0 < saturationVaporPressure Real.exp t := by
    unfold saturationVaporPressure
    exact mul_pos (by norm_num) (Real.exp_pos _)
  have hfac : 1 - rh / 100 < 0 := by linarith
  have heq : computeVPD Real.exp t rh =
      saturationVaporPressure Real.exp t * (1 - rh / 100) := by
    simp only [computeVPD, actualVaporPressure]; norm_num; ring
  rw [heq]
  exact mul_neg_of_pos_of_neg hes hfac

/-- Instance of C13 at 25 °C and 120 % relative humidity. -/
theorem computeVPD_neg_of_rh_gt_100_witness :
    (25 : ℝ) ≠ -237.3 ∧ (100 : ℝ) < 120 ∧ computeVPD Real.exp 25 120 < 0 :=
  ⟨by norm_num, by norm_num, computeVPD_neg_of_rh_gt_100 25 120 (by norm_num) (by norm_num)⟩

/-! ## Presentation helpers -/

/-- C14: `vpdStatusToNumeric` sends `TOO_LOW`, `OPTIMAL`, `TOO_HIGH` to `-1`,
`0`, `1` and `vpdStatusToString` sends them to `"too_low"`, `"optimal"`,
`"too_high"`; both are injective on the three defined statuses and map them
bijectively onto those three outputs; no defined status gives `-999` or
`"unknown"`. -/
theorem vpdStatus_conversions :
    vpdStatusToNumeric VpdStatus.TOO_LOW = -1 ∧
    vpdStatusToNumeric VpdStatus.OPTIMAL = 0 ∧
    vpdStatusToNumeric VpdStatus.TOO_HIGH = 1 ∧
    vpdStatusToString VpdStatus.TOO_LOW = "too_low" ∧
    vpdStatusToString VpdStatus.OPTIMAL = "optimal" ∧
    vpdStatusToString VpdStatus.TOO_HIGH = "too_high" ∧
    Set.InjOn vpdStatusToNumeric {VpdStatus.TOO_LOW, VpdStatus.OPTIMAL, VpdStatus.TOO_HIGH} ∧
    Set.InjOn vpdStatusToString {VpdStatus.TOO_LOW, VpdStatus.OPTIMAL, VpdStatus.TOO_HIGH} ∧
    Set.BijOn vpdStatusToNumeric
      {VpdStatus.TOO_LOW, VpdStatus.OPTIMAL, VpdStatus.TOO_HIGH} {-1, 0, 1} ∧
    Set.BijOn vpdStatusToString
      {VpdStatus.TOO_LOW, VpdStatus.OPTIMAL, VpdStatus.TOO_HIGH}
      {"too_low", "optimal", "too_high"} ∧
    vpdStatusToNumeric VpdStatus.TOO_LOW ≠ -999 ∧
    vpdStatusToNumeric VpdStatus.OPTIMAL ≠ -999 ∧
    vpdStatusToNumeric VpdStatus.TOO_HIGH ≠ -999 ∧
    vpdStatusToString VpdStatus.TOO_LOW ≠ "unknown" ∧
    vpdStatusToString VpdStatus.OPTIMAL ≠ "unknown" ∧
    vpdStatusToString VpdStatus.TOO_HIGH ≠ "unknown" := by
  have n0 : vpdStatusToNumeric VpdStatus.TOO_LOW = -1 := by decide
  have n1 : vpdStatusToNumeric VpdStatus.OPTIMAL = 0 := by decide
  have n2 : vpdStatusToNumeric VpdStatus.TOO_HIGH = 1 := by decide
  have s0 : vpdStatusToString VpdStatus.TOO_LOW = "too_low" := by decide
  have s1 : vpdStatusToString VpdStatus.OPTIMAL = "optimal" := by decide
  have s2 : vpdStatusToString VpdStatus.TOO_HIGH = "too_high" := by decide
  have injN : Set.InjOn vpdStatusToNumeric
      {VpdStatus.TOO_LOW, VpdStatus.OPTIMAL, VpdStatus.TOO_HIGH} := by
    intro a ha b hb hab
    simp only [Set.mem_insert_iff, Set.mem_singleton_iff] at ha hb
    rcases ha with rfl | rfl | rfl <;> rcases hb with rfl | rfl | rfl <;>
      first
        | rfl
        | exact absurd hab (by decide)
  have injS : Set.InjOn vpdStatusToString
      {VpdStatus.TOO_LOW, VpdStatus.OPTIMAL, VpdStatus.TOO_HIGH} := by
    intro a ha b hb hab
    simp only [Set.mem_insert_iff, Set.mem_singleton_iff] at ha hb
    rcases ha with rfl | rfl | rfl <;> rcases hb with rfl | rfl | rfl <;>
      first
        | rfl
        | exact absurd hab (by decide)
  have bijN : Set.BijOn vpdStatusToNumeric
      {VpdStatus.TOO_LOW, VpdStatus.OPTIMAL, VpdStatus.TOO_HIGH} {-1, 0, 1} := by
    refine ⟨?_, injN, ?_⟩
    · intro a ha
      simp only [Set.mem_insert_iff, Set.mem_singleton_iff] at ha
      rcases ha with rfl | rfl | rfl
      · rw [n0]; simp
      · rw [n1]; simp
      · rw [n2]; simp
    · intro y hy
      simp only [Set.mem_insert_iff, Set.mem_singleton_iff] at hy
      rcases hy with rfl | rfl | rfl
      · exact ⟨VpdStatus.TOO_LOW, by simp, n0⟩
      · exact ⟨VpdStatus.OPTIMAL, by simp, n1⟩
      · exact ⟨VpdStatus.TOO_HIGH, by simp, n2⟩
  have bijS : Set.BijOn vpdStatusToString
      {VpdStatus.TOO_LOW, VpdStatus.OPTIMAL, VpdStatus.TOO_HIGH}
      {"too_low", "optimal", "too_high"} := by
    refine ⟨?_, injS, ?_⟩
    · intro a ha
      simp only [Set.mem_insert_iff, Set.mem_singleton_iff] at ha
      rcases ha with rfl | rfl | rfl
      · rw [s0]; simp
      · rw [s1]; simp
      · rw [s2]; simp
    · intro y hy
      simp only [Set.mem_insert_iff, Set.mem_singleton_iff] at hy
      rcases hy with rfl | rfl | rfl
      · exact ⟨VpdStatus.TOO_LOW, by simp, s0⟩
      · exact ⟨VpdStatus.OPTIMAL, by simp, s1⟩
      · exact ⟨VpdStatus.TOO_HIGH, by simp, s2⟩
  refine ⟨n0, n1, n2, s0, s1, s2, injN, injS, bijN, bijS, ?_, ?_, ?_, ?_, ?_, ?_⟩
  · rw [n0]; decide
  · rw [n1]; decide
  · rw [n2]; decide
  · rw [s0]; decide
  · rw [s1]; decide
  · rw [s2]; decide

/-! ## Monotonicity -/

/-- C15: classification is monotone in the VPD value: for every stage, age and
`v1 ≤ v2`, the numeric code of the status of `v1` is at most that of `v2`. -/
theorem classifyVpd_monotone (v1 v2 : α) (stage : GrowStage) (plantAgeDays : α)
    (h : v1 ≤ v2) :
    vpdStatusToNumeric (classifyVpd v1 stage plantAgeDays) ≤
      vpdStatusToNumeric (classifyVpd v2 stage plantAgeDays) := by
  have hr := range_ordered stage plantAgeDays
  simp only [classifyVpd]
  split_ifs <;> first | decide | (exfalso; linarith)

/-- Instance of C15 at `0.7 ≤ 1.3` in the vegetative stage at age `-1`, over
the rationals. -/
theorem classifyVpd_monotone_witness :
    (0.7 : ℚ) ≤ 1.3 ∧
    vpdStatusToNumeric (classifyVpd (0.7 : ℚ) GrowStage.VEG (-1)) ≤
      vpdStatusToNumeric (classifyVpd (1.3 : ℚ) GrowStage.VEG (-1)) :=
  ⟨by norm_num, classifyVpd_monotone (0.7 : ℚ) 1.3 GrowStage.VEG (-1) (by norm_num)⟩

/-- C16: for each stage the target range is monotone in tracked age: for
`0 ≤ a ≤ b` both `min_kPa` and `max_kPa` at age `a` are at most those at age
`b` (stated for every stage value, in particular `VEG` and `FLOWER`). -/
theorem getVpdRangeForStage_monotone_age (stage : GrowStage) (a b : α)
    (h0 : 0 ≤ a) (hab : a ≤ b) :
    (getVpdRangeForStage stage a).min_kPa ≤ (getVpdRangeForStage stage b).min_kPa ∧
    (getVpdRangeForStage stage a).max_kPa ≤ (getVpdRangeForStage stage b).max_kPa := by
  have ha : a ≥ 0 := h0
  have hb : b ≥ 0 := le_trans h0 hab
  simp only [getVpdRangeForStage, if_pos ha, if_pos hb]
  constructor <;> split_ifs <;> first | (exfalso; linarith) | norm_num

/-- Instance of C16 in the flowering stage at ages `40 ≤ 60`, over the
rationals. -/
theorem getVpdRangeForStage_monotone_age_witness :
    (0 : ℚ) ≤ 40 ∧ (40 : ℚ) ≤ 60 ∧
    (getVpdRangeForStage GrowStage.FLOWER (40 : ℚ)).min_kPa ≤
      (getVpdRangeForStage GrowStage.FLOWER (60 : ℚ)).min_kPa ∧
    (getVpdRangeForStage GrowStage.FLOWER (40 : ℚ)).max_kPa ≤
      (getVpdRangeForStage GrowStage.FLOWER (60 : ℚ)).max_kPa :=
  ⟨by norm_num, by norm_num,
    getVpdRangeForStage_monotone_age GrowStage.FLOWER (40 : ℚ) 60 (by norm_num) (by norm_num)⟩

/-- C17: in exact real arithmetic, on the physical domain `-237.3 < t1 < t2`,
`0 < saturationVaporPressure t1 < saturationVaporPressure t2`. -/
theorem saturationVaporPressure_pos_strictMono (t1 t2 : ℝ) (h1 : -237.3 < t1)
    (h12 : t1 < t2) :
    0 < saturationVaporPressure Real.exp t1 ∧
      saturationVaporPressure Real.exp t1 < saturationVaporPressure Real.exp t2 := by
  have d1 : 0 < t1 + 237.3 := by linarith
  have d2 : 0 < t2 + 237.3 := by linarith
  have hq : (17.27 * t1) / (t1 + 237.3) < (17.27 * t2) / (t2 + 237.3) := by
    rw [div_lt_div_iff₀ d1 d2]
    nlinarith
  unfold saturationVaporPressure
  refine ⟨mul_pos (by norm_num) (Real.exp_pos _), ?_⟩
  exact mul_lt_mul_of_pos_left (Real.exp_lt_exp.mpr hq) (by norm_num)

/-- Instance of C17 at 0 °C and 25 °C. -/
theorem saturationVaporPressure_pos_strictMono_witness :
    (-237.3 : ℝ) < 0 ∧ (0 : ℝ) < 25 ∧
    0 < saturationVaporPressure Real.exp 0 ∧
      saturationVaporPressure Real.exp 0 < saturationVaporPressure Real.exp 25 :=
  ⟨by norm_num, by norm_num,
    saturationVaporPressure_pos_strictMono 0 25 (by norm_num) (by norm_num)⟩

/-! ## Composition of the pipeline -/

/-- C18: in exact real arithmetic, at 100 % relative humidity the deficit is
`0` for every temperature, every target range has a strictly positive minimum,
and so the reading classifies as `TOO_LOW` for every stage and age. -/
theorem saturated_air_too_low (t : ℝ) (stage : GrowStage) (plantAgeDays : ℝ) :
    computeVPD Real.exp t 100 = 0 ∧
    0 < (getVpdRangeForStage stage plantAgeDays).min_kPa ∧
    classifyVpd (computeVPD Real.exp t 100) stage plantAgeDays = VpdStatus.TOO_LOW := by
  have hz : computeVPD Real.exp t 100 = 0 := by
    simp only [computeVPD, actualVaporPressure]; norm_num
  have hmin : 0 < (getVpdRangeForStage stage plantAgeDays).min_kPa := by
    simp only [getVpdRangeForStage]
    split_ifs <;> norm_num
  refine ⟨hz, hmin, ?_⟩
  rw [hz]
  simp only [classifyVpd, if_pos hmin]

/-- C19: at the same age (negative or not) the flowering range is never below
the vegetative one, in `min_kPa` and in `max_kPa`; hence for every `vpd` the
numeric status under `FLOWER` is at most the one under `VEG`. -/
theorem flower_range_ge_veg_range (plantAgeDays vpd : α) :
    (getVpdRangeForStage GrowStage.FLOWER plantAgeDays).min_kPa ≥
      (getVpdRangeForStage GrowStage.VEG plantAgeDays).min_kPa ∧
    (getVpdRangeForStage GrowStage.FLOWER plantAgeDays).max_kPa ≥
      (getVpdRangeForStage GrowStage.VEG plantAgeDays).max_kPa ∧
    vpdStatusToNumeric (classifyVpd vpd GrowStage.FLOWER plantAgeDays) ≤
      vpdStatusToNumeric (classifyVpd vpd GrowStage.VEG plantAgeDays) := by
  have hne : ¬ GrowStage.FLOWER = GrowStage.VEG := by decide
  have hmin : (getVpdRangeForStage GrowStage.FLOWER plantAgeDays).min_kPa ≥
      (getVpdRangeForStage GrowStage.VEG plantAgeDays).min_kPa := by
    simp only [getVpdRangeForStage, if_neg hne, if_true]
    split_ifs <;> norm_num
  have hmax : (getVpdRangeForStage GrowStage.FLOWER plantAgeDays).max_kPa ≥
      (getVpdRangeForStage GrowStage.VEG plantAgeDays).max_kPa := by
    simp only [getVpdRangeForStage, if_neg hne, if_true]
    split_ifs <;> norm_num
  have hv := range_ordered GrowStage.VEG plantAgeDays
  have hf := range_ordered GrowStage.FLOWER plantAgeDays
  refine ⟨hmin, hmax, ?_⟩
  simp only [classifyVpd]
  split_ifs <;> first | decide | (exfalso; linarith)

end Vpd
